import Mathlib

/-!
Shallow embedding of `app.py` of the confluence-snapshot repository:
a single-endpoint Flask service that parses a request (GET query string
or POST JSON body), fetches OHLCV candles from an exchange, computes
RSI/ATR/swing-high/swing-low/order-block values and returns them as a
cleaned JSON object.

Floats are idealised as rationals (`ℚ`); the non-finite float values
`nan`, `inf`, `-inf` are represented explicitly by the `PyFloat` type so
that the NaN/Inf cleaning step of the handler can be modelled.  The
exchange call is an oracle function passed to the handler.
-/

set_option maxRecDepth 8000

namespace ConfluenceSnapshot

/-- A Python float value: either a finite value (idealised as a rational)
or one of the non-finite floats. -/
inductive PyFloat where
  | fin (q : ℚ)
  | nan
  | inf
  | ninf
deriving DecidableEq, Repr

/-- A value appearing in the response dictionary built by the handler:
a float, a string, or `None`. -/
inductive PyObj where
  | num (f : PyFloat)
  | str (s : String)
  | none_
deriving DecidableEq, Repr

/-- A scalar JSON value arriving in a POST body (the handler only reads
strings and integers from the body; query-string values are strings). -/
inductive PyVal where
  | vstr (s : String)
  | vint (n : Int)
deriving DecidableEq, Repr

/-- One OHLCV candle row, as produced by `fetch_ohlcv` and loaded into
the DataFrame with columns `ts, o, h, l, c, v`. -/
structure Candle where
  ts : ℚ
  o : ℚ
  h : ℚ
  l : ℚ
  c : ℚ
  v : ℚ
deriving DecidableEq, Repr

/-- Round a rational to the nearest integer, ties to even — the rounding
used by Python's built-in `round`. -/
def roundHalfEven (y : ℚ) : ℤ :=
  let f := Int.floor y
  let r := y - f
  if r < 1/2 then f
  else if 1/2 < r then f + 1
  else if 2 ∣ f then f else f + 1

/-- Python's `round(x, 2)`: round to 2 decimal places, ties to even. -/
def round2 (x : ℚ) : ℚ := (roundHalfEven (x * 100) : ℚ) / 100

/-- `round(v, 2)` lifted to Python floats: `round` maps `nan` to `nan`
and the infinities to themselves. -/
def roundF2 : PyFloat → PyFloat
  | .fin q => .fin (round2 q)
  | .nan => .nan
  | .inf => .inf
  | .ninf => .ninf

/-- Python `str` of a float that carries at most two decimal places
(such as the result of `round(x, 2)`): an integral float prints with a
trailing `.0`, otherwise the shortest decimal expansion is printed.
Used for the f-string building the `orderBlock` field. -/
def fmtQ2 (q : ℚ) : String :=
  let n : ℤ := Int.floor (q * 100)
  let sgn := if n < 0 then "-" else ""
  let m := n.natAbs
  let ip := m / 100
  let fp := m % 100
  if fp = 0 then sgn ++ toString ip ++ ".0"
  else if fp % 10 = 0 then sgn ++ toString ip ++ "." ++ toString (fp / 10)
  else sgn ++ toString ip ++ "." ++ (if fp < 10 then "0" else "") ++ toString fp

/-- Python `int(s)` on a string: strip surrounding whitespace, accept an
optional sign followed by at least one digit; anything else raises
`ValueError` (`none`). -/
def pyIntOfString (s : String) : Option Int :=
  let cs := s.data.dropWhile (fun ch => ch.isWhitespace)
  let cs := (cs.reverse.dropWhile (fun ch => ch.isWhitespace)).reverse
  match cs with
  | [] => none
  | ch :: rest =>
    let signed : Bool := ch = '-'
    let digits := if ch = '-' ∨ ch = '+' then rest else ch :: rest
    if digits ≠ [] ∧ digits.all (fun d => d.isDigit) then
      let m : Nat := digits.foldl (fun a d => a * 10 + (d.toNat - 48)) 0
      some (if signed then -(m : Int) else (m : Int))
    else none

/-- Python truthiness of an optional query-string value:
`None` and the empty string are falsy. -/
def strTruthy : Option String → Bool
  | none => false
  | some s => if s = "" then false else true

/-- Python `a or b` on optional query-string values. -/
def strOr (a b : Option String) : Option String :=
  if strTruthy a then a else b

/-- Python truthiness of an optional JSON body value:
`None`, the empty string and the integer `0` are falsy. -/
def pyTruthy : Option PyVal → Bool
  | none => false
  | some (.vstr s) => if s = "" then false else true
  | some (.vint n) => if n = 0 then false else true

/-- Python `a or b` on optional JSON body values. -/
def pyOr (a b : Option PyVal) : Option PyVal :=
  if pyTruthy a then a else b

/-- Python `int(v)` on a JSON body value: parse strings, keep integers. -/
def pyIntOfVal : PyVal → Option Int
  | .vstr s => pyIntOfString s
  | .vint n => some n

/-- The last `n` elements of a list (the window an indicator looks at). -/
def lastWindow (n : ℕ) (l : List α) : List α := l.drop (l.length - n)

/-- The positive price changes (gains) along a list of closes, with
losses contributing `0`. -/
def upMoves (w : List ℚ) : List ℚ :=
  (w.zip w.tail).map (fun p => max (p.2 - p.1) 0)

/-- The negative price changes (losses, as positive magnitudes) along a
list of closes, with gains contributing `0`. -/
def downMoves (w : List ℚ) : List ℚ :=
  (w.zip w.tail).map (fun p => max (p.1 - p.2) 0)

/-- Modelled from the spec: the implementation of `ta.rsi` lives in the
third-party `pandas_ta` library, which is not part of this repository.
The spec describes RSI as "a momentum oscillator derived from average
gains/losses over a lookback window" computed by "fixed-window
mean-based smoothing formulas".  Accordingly: over the last `length`
price changes of the close series, take the mean gain and mean loss,
and map their ratio `rs` to `100 - 100 / (1 + rs)` (when the mean loss
is zero the ratio is infinite and the value is `100`).  When the series
is too short to fill the window the result is `nan`, as a rolling
pandas indicator yields `NaN` at such positions. -/
def rsi (closes : List ℚ) (length : Int) : PyFloat :=
  if 0 < length ∧ length.toNat + 1 ≤ closes.length then
    if (downMoves (lastWindow (length.toNat + 1) closes)).sum / (length.toNat : ℚ) = 0 then
      .fin 100
    else
      .fin (100 - 100 /
        (1 + ((upMoves (lastWindow (length.toNat + 1) closes)).sum / (length.toNat : ℚ)) /
          ((downMoves (lastWindow (length.toNat + 1) closes)).sum / (length.toNat : ℚ))))
  else .nan

/-- The true range of a candle given its predecessor:
`max(high - low, |high - prev close|, |low - prev close|)`. -/
def trueRange (prev cur : Candle) : ℚ :=
  max (cur.h - cur.l) (max |cur.h - prev.c| |cur.l - prev.c|)

/-- The true ranges along a candle list (each candle paired with its
predecessor). -/
def trueRanges (cs : List Candle) : List ℚ :=
  (cs.zip cs.tail).map (fun p => trueRange p.1 p.2)

/-- Modelled from the spec: the implementation of `ta.atr` lives in the
third-party `pandas_ta` library, which is not part of this repository.
The spec describes ATR as "a volatility measure derived from
high/low/close over a lookback window" computed by "fixed-window
mean-based smoothing formulas".  Accordingly: the mean of the last
`length` true ranges of the candle series; `nan` when the series is too
short to fill the window. -/
def atr (cs : List Candle) (length : Int) : PyFloat :=
  if 0 < length ∧ length.toNat + 1 ≤ cs.length then
    .fin ((trueRanges (lastWindow (length.toNat + 1) cs)).sum / (length.toNat : ℚ))
  else .nan

/-- The request parameters that survive parsing: `pair`, the timeframe
`tf` (from `interval` or its alias `timeframe`) and `lookback`. -/
structure ParsedReq where
  pair : PyVal
  tf : PyVal
  lookback : Int
deriving DecidableEq, Repr

/-- Outcome of the input-parsing section of the handler. -/
inductive ParseRes where
  /-- All three parameters obtained. -/
  | ok (q : ParsedReq)
  /-- `abort(400)`: `pair` or the timeframe missing/falsy. -/
  | badParams
  /-- `int()` raised `ValueError`; nothing catches it. -/
  | valueError
deriving DecidableEq, Repr

/-- The GET branch of input parsing (`request.args`): all values are
strings; `lookback` defaults to `14` and is converted with `int()`
before the `pair`/`tf` presence check runs. -/
def parseGet (pair interval timeframe lookback : Option String) : ParseRes :=
  let tf := strOr interval timeframe
  match (match lookback with
         | none => some (14 : Int)
         | some s => pyIntOfString s) with
  | none => .valueError
  | some lb =>
      if strTruthy pair && strTruthy tf then
        .ok ⟨.vstr (pair.getD ""), .vstr (tf.getD ""), lb⟩
      else .badParams

/-- The POST branch of input parsing (`request.get_json`): values are
JSON scalars; `lookback` defaults to `14` and is converted with `int()`
before the `pair`/`tf` presence check runs. -/
def parsePost (pair interval timeframe lookback : Option PyVal) : ParseRes :=
  let tf := pyOr interval timeframe
  match (match lookback with
         | none => some (14 : Int)
         | some v => pyIntOfVal v) with
  | none => .valueError
  | some lb =>
      if pyTruthy pair && pyTruthy tf then
        .ok ⟨pair.getD (.vstr ""), tf.getD (.vstr ""), lb⟩
      else .badParams

/-- A request to the `/snapshot` route: the method together with the
four parameters the handler reads (absent keys are `none`). -/
inductive Req where
  | options
  | get (pair interval timeframe lookback : Option String)
  | post (pair interval timeframe lookback : Option PyVal)
deriving DecidableEq, Repr

/-- Parsing of a request; `none` marks the CORS pre-flight short
circuit, which never reaches the parsing code. -/
def parseOf : Req → Option ParseRes
  | .options => none
  | .get p i t l => some (parseGet p i t l)
  | .post p i t l => some (parsePost p i t l)

/-- The candle count the handler asks the exchange for:
`limit=max(lookback * 5, 200)`. -/
def requestedLimit (lookback : Int) : Int := max (lookback * 5) 200

/-- `df["h"].max()` on a nonempty column (and `none` on an empty one,
where pandas yields `NaN`). -/
def colMax : List ℚ → Option ℚ
  | [] => none
  | x :: xs => some (xs.foldl max x)

/-- `df["l"].min()` on a nonempty column (and `none` on an empty one,
where pandas yields `NaN`). -/
def colMin : List ℚ → Option ℚ
  | [] => none
  | x :: xs => some (xs.foldl min x)

/-- The `raw` dictionary the handler builds from a nonempty candle list
(`c0 :: rest`) and the lookback, before the NaN/Inf cleaning step:
price, rsi, atr, swingHigh, swingLow, bos and orderBlock, with every
numeric field passed through `round(float(·), 2)`. -/
def rawDict (c0 : Candle) (rest : List Candle) (lb : Int) : List (String × PyObj) :=
  let candles := c0 :: rest
  let rsiVal := rsi (candles.map (fun cd => cd.c)) lb
  let atrVal := atr candles lb
  let swingHigh := rest.foldl (fun a cd => max a cd.h) c0.h
  let swingLow := rest.foldl (fun a cd => min a cd.l) c0.l
  let bos := swingHigh
  let obLow := round2 (swingLow * (101 / 100))
  let obHigh := round2 (swingLow * (103 / 100))
  let lastClose := (rest.getLast?.getD c0).c
  [("price", .num (.fin (round2 lastClose))),
   ("rsi", .num (roundF2 rsiVal)),
   ("atr", .num (roundF2 atrVal)),
   ("swingHigh", .num (.fin (round2 swingHigh))),
   ("swingLow", .num (.fin (round2 swingLow))),
   ("bos", .num (.fin (round2 bos))),
   ("orderBlock", .str (fmtQ2 obLow ++ "-" ++ fmtQ2 obHigh))]

/-- One entry of the cleaning comprehension:
`None if v is None or (isinstance(v, float) and not math.isfinite(v)) else v`. -/
def cleanVal : PyObj → PyObj
  | .none_ => .none_
  | .num .nan => .none_
  | .num .inf => .none_
  | .num .ninf => .none_
  | v => v

/-- The cleaning comprehension over the whole dictionary. -/
def cleanDict (d : List (String × PyObj)) : List (String × PyObj) :=
  d.map (fun kv => (kv.1, cleanVal kv.2))

/-- The observable outcome of one call of the `snapshot` handler. -/
inductive SnapResult where
  /-- `("", 204)` for the CORS pre-flight. -/
  | preflight
  /-- `abort(400, ...)`: `pair` or the timeframe missing. -/
  | badParams
  /-- An exception escaped the handler (nothing catches it). -/
  | uncaughtError (msg : String)
  /-- `(jsonify({"error": msg}), 400)` from the `except` branch. -/
  | fetchError (msg : String)
  /-- `jsonify(clean)` with HTTP 200. -/
  | ok (body : List (String × PyObj))
deriving DecidableEq, Repr

/-- The HTTP status of an outcome; `none` when an exception propagated
unhandled and the handler produced no response of its own. -/
def statusOf : SnapResult → Option ℕ
  | .preflight => some 204
  | .badParams => some 400
  | .uncaughtError _ => none
  | .fetchError _ => some 400
  | .ok _ => some 200

/-- The JSON body of an outcome, when the handler serialises one. -/
def jsonBodyOf : SnapResult → Option (List (String × PyObj))
  | .fetchError msg => some [("error", .str msg)]
  | .ok body => some body
  | _ => none

/-- The part of the handler after a successful fetch: load the candles
and compute the response.  `df["c"].iloc[-1]` (reached via `ta.rsi`
first) raises `IndexError` on an empty frame; otherwise the cleaned
dictionary is returned. -/
def snapshotOfCandles (candles : List Candle) (lb : Int) : SnapResult :=
  match candles with
  | [] => .uncaughtError "IndexError: single positional indexer is out-of-bounds"
  | c0 :: rest => .ok (cleanDict (rawDict c0 rest lb))

/-- The handler body after parsing: run the exchange fetch inside the
only `try` of the handler, then compute the snapshot. -/
def snapshotCore (pr : ParseRes)
    (fetch : PyVal → PyVal → Int → Except String (List Candle)) : SnapResult :=
  match pr with
  | .valueError => .uncaughtError "ValueError: invalid literal for int() with base 10"
  | .badParams => .badParams
  | .ok q =>
      match fetch q.pair q.tf (requestedLimit q.lookback) with
      | .error e => .fetchError e
      | .ok candles => snapshotOfCandles candles q.lookback

/-- The `/snapshot` handler: CORS pre-flight, parse, fetch, compute,
clean, serialise.  The exchange is the oracle `fetch`, a function of
the pair, the timeframe and the candle limit. -/
def snapshot (req : Req)
    (fetch : PyVal → PyVal → Int → Except String (List Candle)) : SnapResult :=
  match parseOf req with
  | none => .preflight
  | some pr => snapshotCore pr fetch

/-- Look a key up in a response dictionary (first match). -/
def fieldOf (body : List (String × PyObj)) (k : String) : Option PyObj :=
  match body with
  | [] => none
  | (k2, v) :: rest => if k = k2 then some v else fieldOf rest k

/-! ### Concrete demonstration data used by the witnesses -/

/-- A candle with the given open/high/low/close and zero ts/volume. -/
def demoCandle (o h l c : ℚ) : Candle := ⟨0, o, h, l, c, 0⟩

/-- Three concrete candles. -/
def demoCandles : List Candle :=
  [demoCandle 10 12 9 11, demoCandle 11 13 10 12, demoCandle 12 14 11 10]

/-- A concrete GET request with `lookback=2`. -/
def demoReq : Req := .get (some "BTCUSDT") (some "1h") none (some "2")

/-- The parse of `demoReq`. -/
def demoParsed : ParsedReq := ⟨.vstr "BTCUSDT", .vstr "1h", 2⟩

/-- An exchange oracle answering every query with `demoCandles`. -/
def demoFetch : PyVal → PyVal → Int → Except String (List Candle) :=
  fun _ _ _ => .ok demoCandles

/-- An exchange oracle answering only queries with `limit = 200`. -/
def demoFetchAt200 : PyVal → PyVal → Int → Except String (List Candle) :=
  fun _ _ l => if l = 200 then .ok demoCandles else .error "wrong limit"

/-- An exchange oracle that always raises. -/
def demoFetchErr : PyVal → PyVal → Int → Except String (List Candle) :=
  fun _ _ _ => .error "binance is down"

/-- An exchange oracle answering with an empty candle list. -/
def demoFetchEmpty : PyVal → PyVal → Int → Except String (List Candle) :=
  fun _ _ _ => .ok []

/-- The body of the successful response for `demoReq` with `demoFetch`. -/
def demoBody : List (String × PyObj) :=
  [("price", .num (.fin 10)),
   ("rsi", .num (.fin (3333 / 100))),
   ("atr", .num (.fin 3)),
   ("swingHigh", .num (.fin 14)),
   ("swingLow", .num (.fin 9)),
   ("bos", .num (.fin 14)),
   ("orderBlock", .str "9.09-9.27")]

/-! ### Helper lemmas -/

/-- The seed bounds `foldl max` from below. -/
lemma seed_le_foldl_max (xs : List ℚ) (a : ℚ) : a ≤ xs.foldl max a := by
  induction xs generalizing a with
  | nil => exact le_refl a
  | cons y ys ih => exact le_trans (le_max_left a y) (ih (max a y))

/-- Every element of the list, and the seed, bounds `foldl max` from
below. -/
lemma le_foldl_max {xs : List ℚ} {a x : ℚ} (hx : x = a ∨ x ∈ xs) :
    x ≤ xs.foldl max a := by
  induction xs generalizing a with
  | nil =>
    rcases hx with rfl | hx
    · exact le_refl x
    · cases hx
  | cons y ys ih =>
    rw [List.foldl_cons]
    rcases hx with rfl | hx
    · exact le_trans (le_max_left x y) (seed_le_foldl_max ys (max x y))
    · rcases List.mem_cons.mp hx with rfl | hx
      · exact le_trans (le_max_right a x) (seed_le_foldl_max ys (max a x))
      · exact ih (Or.inr hx)

/-- `foldl max` returns the seed or an element of the list. -/
lemma foldl_max_cases (xs : List ℚ) (a : ℚ) :
    xs.foldl max a = a ∨ xs.foldl max a ∈ xs := by
  induction xs generalizing a with
  | nil => exact Or.inl rfl
  | cons y ys ih =>
    rcases ih (max a y) with h | h
    · rcases max_choice a y with hm | hm
      · exact Or.inl (by rw [List.foldl_cons, h, hm])
      · exact Or.inr (by rw [List.foldl_cons, h, hm]; exact List.mem_cons_self y ys)
    · exact Or.inr (List.mem_cons_of_mem y h)

/-- The seed bounds `foldl min` from above. -/
lemma foldl_min_seed_le (xs : List ℚ) (a : ℚ) : xs.foldl min a ≤ a := by
  induction xs generalizing a with
  | nil => exact le_refl a
  | cons y ys ih => exact le_trans (ih (min a y)) (min_le_left a y)

/-- Every element of the list, and the seed, bounds `foldl min` from
above. -/
lemma foldl_min_le {xs : List ℚ} {a x : ℚ} (hx : x = a ∨ x ∈ xs) :
    xs.foldl min a ≤ x := by
  induction xs generalizing a with
  | nil =>
    rcases hx with rfl | hx
    · exact le_refl x
    · cases hx
  | cons y ys ih =>
    rw [List.foldl_cons]
    rcases hx with rfl | hx
    · exact le_trans (foldl_min_seed_le ys (min x y)) (min_le_left x y)
    · rcases List.mem_cons.mp hx with rfl | hx
      · exact le_trans (foldl_min_seed_le ys (min a x)) (min_le_right a x)
      · exact ih (Or.inr hx)

/-- `foldl min` returns the seed or an element of the list. -/
lemma foldl_min_cases (xs : List ℚ) (a : ℚ) :
    xs.foldl min a = a ∨ xs.foldl min a ∈ xs := by
  induction xs generalizing a with
  | nil => exact Or.inl rfl
  | cons y ys ih =>
    rcases ih (min a y) with h | h
    · rcases min_choice a y with hm | hm
      · exact Or.inl (by rw [List.foldl_cons, h, hm])
      · exact Or.inr (by rw [List.foldl_cons, h, hm]; exact List.mem_cons_self y ys)
    · exact Or.inr (List.mem_cons_of_mem y h)

/-- `colMax` returns an element of the column that bounds the whole
column from above. -/
lemma colMax_spec {l : List ℚ} {M : ℚ} (h : colMax l = some M) :
    M ∈ l ∧ ∀ x ∈ l, x ≤ M := by
  match l with
  | [] => simp [colMax] at h
  | x :: xs =>
    simp only [colMax, Option.some.injEq] at h
    subst h
    constructor
    · rcases foldl_max_cases xs x with h | h
      · rw [h]; exact List.mem_cons_self x xs
      · exact List.mem_cons_of_mem x h
    · intro y hy
      rcases List.mem_cons.mp hy with rfl | hy
      · exact le_foldl_max (Or.inl rfl)
      · exact le_foldl_max (Or.inr hy)

/-- `colMin` returns an element of the column that bounds the whole
column from below. -/
lemma colMin_spec {l : List ℚ} {m : ℚ} (h : colMin l = some m) :
    m ∈ l ∧ ∀ x ∈ l, m ≤ x := by
  match l with
  | [] => simp [colMin] at h
  | x :: xs =>
    simp only [colMin, Option.some.injEq] at h
    subst h
    constructor
    · rcases foldl_min_cases xs x with h | h
      · rw [h]; exact List.mem_cons_self x xs
      · exact List.mem_cons_of_mem x h
    · intro y hy
      rcases List.mem_cons.mp hy with rfl | hy
      · exact foldl_min_le (Or.inl rfl)
      · exact foldl_min_le (Or.inr hy)

/-- `colMax` of a mapped candle column, written as the fold the handler
performs. -/
lemma colMax_map_cons (g : Candle → ℚ) (c0 : Candle) (rest : List Candle) :
    colMax ((c0 :: rest).map g) = some (rest.foldl (fun a cd => max a (g cd)) (g c0)) := by
  simp [colMax, List.foldl_map]

/-- `colMin` of a mapped candle column, written as the fold the handler
performs. -/
lemma colMin_map_cons (g : Candle → ℚ) (c0 : Candle) (rest : List Candle) :
    colMin ((c0 :: rest).map g) = some (rest.foldl (fun a cd => min a (g cd)) (g c0)) := by
  simp [colMin, List.foldl_map]

/-- Reduction of the handler on the main path: once parsing succeeded
and the fetch answered, the outcome is `snapshotOfCandles`. -/
lemma snapshot_reduces {req : Req} {q : ParsedReq}
    {f : PyVal → PyVal → Int → Except String (List Candle)} {candles : List Candle}
    (hp : parseOf req = some (.ok q))
    (hf : f q.pair q.tf (requestedLimit q.lookback) = .ok candles) :
    snapshot req f = snapshotOfCandles candles q.lookback := by
  simp only [snapshot, hp, snapshotCore, hf]

/-- A successful outcome is always a cleaned `rawDict` over a nonempty
candle list. -/
lemma snapshot_ok_shape {req : Req}
    {f : PyVal → PyVal → Int → Except String (List Candle)}
    {body : List (String × PyObj)} (h : snapshot req f = .ok body) :
    ∃ c0 rest lb, body = cleanDict (rawDict c0 rest lb) := by
  cases hpr : parseOf req with
  | none => simp [snapshot, hpr] at h
  | some pr =>
    cases pr with
    | valueError => simp [snapshot, hpr, snapshotCore] at h
    | badParams => simp [snapshot, hpr, snapshotCore] at h
    | ok q =>
      cases hfe : f q.pair q.tf (requestedLimit q.lookback) with
      | error e => simp [snapshot, hpr, snapshotCore, hfe] at h
      | ok candles =>
        cases candles with
        | nil => simp [snapshot, hpr, snapshotCore, hfe, snapshotOfCandles] at h
        | cons c0 rest =>
          refine ⟨c0, rest, q.lookback, ?_⟩
          have h2 : snapshot req f = .ok (cleanDict (rawDict c0 rest q.lookback)) := by
            simp only [snapshot, hpr, snapshotCore, hfe, snapshotOfCandles]
          exact (SnapResult.ok.inj (h2.symm.trans h)).symm

/-- Evaluation of the cleaned response dictionary on the demonstration
candles with `lookback = 2`. -/
lemma demo_body_eval :
    cleanDict (rawDict (demoCandle 10 12 9 11)
      [demoCandle 11 13 10 12, demoCandle 12 14 11 10] 2) = demoBody := by
  norm_num [rawDict, cleanDict, cleanVal, rsi, atr, lastWindow, upMoves, downMoves,
    trueRanges, trueRange, round2, roundHalfEven, roundF2, fmtQ2, demoCandle, demoBody,
    max_def, min_def, abs, List.zip, List.zipWith, demoCandles,
    (show ((2:Int).toNat) = 2 from rfl), -Int.self_sub_floor]
  decide

/-- The demonstration request against the demonstration exchange yields
the demonstration body. -/
lemma demo_snapshot_ok : snapshot demoReq demoFetch = .ok demoBody := by
  have hp : parseOf demoReq = some (.ok demoParsed) := by decide
  have hf : demoFetch demoParsed.pair demoParsed.tf (requestedLimit demoParsed.lookback) =
      .ok demoCandles := rfl
  have hred := snapshot_reduces hp hf
  rw [hred]
  show SnapResult.ok (cleanDict (rawDict (demoCandle 10 12 9 11)
    [demoCandle 11 13 10 12, demoCandle 12 14 11 10] 2)) = _
  rw [demo_body_eval]

/-- Truthiness is preserved when a query-string value is injected into
the JSON value type. -/
lemma pyTruthy_map_vstr (o : Option String) :
    pyTruthy (o.map PyVal.vstr) = strTruthy o := by
  cases o <;> rfl

/-- `a or b` is preserved when query-string values are injected into
the JSON value type. -/
lemma pyOr_map_vstr (a b : Option String) :
    pyOr (a.map PyVal.vstr) (b.map PyVal.vstr) = (strOr a b).map PyVal.vstr := by
  unfold pyOr strOr
  rw [pyTruthy_map_vstr]
  cases hs : strTruthy a <;> simp

/-- `getD` commutes with the injection into the JSON value type. -/
lemma getD_map_vstr (o : Option String) :
    (o.map PyVal.vstr).getD (.vstr "") = .vstr (o.getD "") := by
  cases o <;> rfl

/-! ### The claims -/

/-- C7: the service is stateless and deterministic — the handler reads
and writes no state that persists across requests, so two runs with the
same request parameters and the same exchange reply produce identical
responses. -/
theorem snapshot_deterministic (req₁ req₂ : Req)
    (f₁ f₂ : PyVal → PyVal → Int → Except String (List Candle))
    (hreq : req₁ = req₂) (hf : ∀ p t l, f₁ p t l = f₂ p t l) :
    snapshot req₁ f₁ = snapshot req₂ f₂ := by
  subst hreq
  have hfe : f₁ = f₂ := funext fun p => funext fun t => funext fun l => hf p t l
  rw [hfe]

/-- Witness for C7 at a concrete request and exchange reply. -/
theorem snapshot_deterministic_witness :
    snapshot demoReq demoFetch = snapshot demoReq demoFetch :=
  snapshot_deterministic demoReq demoReq demoFetch demoFetch rfl (fun _ _ _ => rfl)

/-- C9: the candle count requested from the exchange is exactly
`max(lookback * 5, 200)`, hence never below 200; the handler's outcome
depends on the exchange only through its answer at that limit. -/
theorem requested_limit_spec :
    (∀ lb : Int, requestedLimit lb = max (lb * 5) 200 ∧ 200 ≤ requestedLimit lb) ∧
    ∀ (req : Req) (q : ParsedReq)
      (f g : PyVal → PyVal → Int → Except String (List Candle)),
      parseOf req = some (.ok q) →
      f q.pair q.tf (requestedLimit q.lookback) = g q.pair q.tf (requestedLimit q.lookback) →
      snapshot req f = snapshot req g := by
  refine ⟨fun lb => ⟨rfl, le_max_right _ _⟩, ?_⟩
  intro req q f g hp hfg
  simp only [snapshot, hp, snapshotCore, hfg]

/-- Witness for C9: with `lookback = 2` the limit is `200`, and an
oracle answering only at limit 200 yields the same response as one
answering everywhere. -/
theorem requested_limit_spec_witness :
    (parseOf demoReq = some (.ok demoParsed) ∧
     demoFetch demoParsed.pair demoParsed.tf (requestedLimit demoParsed.lookback) =
       demoFetchAt200 demoParsed.pair demoParsed.tf (requestedLimit demoParsed.lookback)) ∧
    snapshot demoReq demoFetch = snapshot demoReq demoFetchAt200 :=
  ⟨⟨by decide, by rfl⟩,
   requested_limit_spec.2 demoReq demoParsed demoFetch demoFetchAt200 (by decide) (by rfl)⟩

/-- C5: the only guarded failure is the exchange fetch — when it raises,
the handler answers `{"error": msg}` with HTTP 400 and computes no
indicators; exceptions anywhere else (the `int()` of `lookback`, the
indicator computation on an empty frame) propagate unhandled. -/
theorem fetch_error_handling :
    (∀ (req : Req) (q : ParsedReq)
       (f : PyVal → PyVal → Int → Except String (List Candle)) (e : String),
       parseOf req = some (.ok q) →
       f q.pair q.tf (requestedLimit q.lookback) = .error e →
       snapshot req f = .fetchError e ∧
       statusOf (snapshot req f) = some 400 ∧
       jsonBodyOf (snapshot req f) = some [("error", .str e)]) ∧
    (∀ f, snapshot (.get (some "BTCUSDT") (some "1h") none (some "xyz")) f =
       .uncaughtError "ValueError: invalid literal for int() with base 10") ∧
    (∀ (req : Req) (q : ParsedReq)
       (f : PyVal → PyVal → Int → Except String (List Candle)),
       parseOf req = some (.ok q) →
       f q.pair q.tf (requestedLimit q.lookback) = .ok [] →
       snapshot req f =
         .uncaughtError "IndexError: single positional indexer is out-of-bounds") := by
  refine ⟨?_, ?_, ?_⟩
  · intro req q f e hp hf
    have h : snapshot req f = .fetchError e := by
      simp only [snapshot, hp, snapshotCore, hf]
    exact ⟨h, by rw [h]; rfl, by rw [h]; rfl⟩
  · intro f
    have h : parseGet (some "BTCUSDT") (some "1h") none (some "xyz") = .valueError := by
      decide
    simp only [snapshot, parseOf, h, snapshotCore]
  · intro req q f hp hf
    simp only [snapshot, hp, snapshotCore, hf, snapshotOfCandles]

/-- Witness for C5 at a concrete request with a raising exchange. -/
theorem fetch_error_handling_witness :
    (parseOf demoReq = some (.ok demoParsed) ∧
     demoFetchErr demoParsed.pair demoParsed.tf (requestedLimit demoParsed.lookback) =
       .error "binance is down") ∧
    (snapshot demoReq demoFetchErr = .fetchError "binance is down" ∧
     statusOf (snapshot demoReq demoFetchErr) = some 400 ∧
     jsonBodyOf (snapshot demoReq demoFetchErr) =
       some [("error", .str "binance is down")]) :=
  ⟨⟨by decide, by rfl⟩,
   fetch_error_handling.1 demoReq demoParsed demoFetchErr "binance is down"
     (by decide) (by rfl)⟩

/-- C6: every value serialised in a successful response is JSON safe —
the cleaning step maps a raw value to `null` exactly when it is `None`
or a non-finite float, keeps it unchanged otherwise, and `NaN` or an
infinity never survives into the response. -/
theorem response_values_json_safe :
    (∀ (req : Req) (f : PyVal → PyVal → Int → Except String (List Candle))
       (body : List (String × PyObj)), snapshot req f = .ok body →
       ∀ kv ∈ body, kv.2 ≠ .num .nan ∧ kv.2 ≠ .num .inf ∧ kv.2 ≠ .num .ninf) ∧
    (∀ v : PyObj, cleanVal v = .none_ ↔
       (v = .none_ ∨ v = .num .nan ∨ v = .num .inf ∨ v = .num .ninf)) ∧
    (∀ v : PyObj, cleanVal v ≠ .none_ → cleanVal v = v) := by
  refine ⟨?_, ?_, ?_⟩
  · intro req f body hb kv hkv
    obtain ⟨c0, rest, lb, rfl⟩ := snapshot_ok_shape hb
    simp only [cleanDict, List.mem_map] at hkv
    obtain ⟨kv0, _, rfl⟩ := hkv
    rcases kv0 with ⟨k, v⟩
    rcases v with fl | s | _
    · rcases fl with q | _ | _ | _ <;> simp [cleanVal]
    · simp [cleanVal]
    · simp [cleanVal]
  · intro v
    rcases v with fl | s | _
    · rcases fl with q | _ | _ | _ <;> simp [cleanVal]
    · simp [cleanVal]
    · simp [cleanVal]
  · intro v hv
    rcases v with fl | s | _
    · rcases fl with q | _ | _ | _ <;> simp_all [cleanVal]
    · simp [cleanVal]
    · simp_all [cleanVal]

/-- Witness for C6 at a concrete successful response. -/
theorem response_values_json_safe_witness :
    snapshot demoReq demoFetch = .ok demoBody ∧
    ("price", PyObj.num (.fin 10)) ∈ demoBody ∧
    (PyObj.num (.fin 10) ≠ .num .nan ∧ PyObj.num (.fin 10) ≠ .num .inf ∧
     PyObj.num (.fin 10) ≠ .num .ninf) :=
  ⟨demo_snapshot_ok, by decide,
   response_values_json_safe.1 demoReq demoFetch demoBody
     demo_snapshot_ok ("price", PyObj.num (.fin 10)) (by decide)⟩

/-- C8: in every successful response the `bos` field coincides with the
`swingHigh` field; both are the rounded maximum of the high column. -/
theorem bos_equals_swing_high
    (req : Req) (q : ParsedReq) (f : PyVal → PyVal → Int → Except String (List Candle))
    (candles : List Candle) (body : List (String × PyObj)) (M : ℚ)
    (hp : parseOf req = some (.ok q))
    (hf : f q.pair q.tf (requestedLimit q.lookback) = .ok candles)
    (hb : snapshot req f = .ok body)
    (hM : colMax (candles.map fun cd => cd.h) = some M) :
    fieldOf body "bos" = fieldOf body "swingHigh" ∧
    fieldOf body "bos" = some (.num (.fin (round2 M))) := by
  cases candles with
  | nil => simp [colMax] at hM
  | cons c0 rest =>
    have hred := snapshot_reduces hp hf
    have h2 : snapshotOfCandles (c0 :: rest) q.lookback =
        .ok (cleanDict (rawDict c0 rest q.lookback)) := rfl
    have hbody : body = cleanDict (rawDict c0 rest q.lookback) :=
      SnapResult.ok.inj ((hb.symm.trans hred).trans h2)
    subst hbody
    rw [colMax_map_cons] at hM
    have hM2 : rest.foldl (fun a cd => max a cd.h) c0.h = M := Option.some.inj hM
    constructor
    · simp [rawDict, cleanDict, fieldOf, cleanVal]
    · simp [rawDict, cleanDict, fieldOf, cleanVal, hM2]

/-- Witness for C8 at a concrete request. -/
theorem bos_equals_swing_high_witness :
    (parseOf demoReq = some (.ok demoParsed) ∧
     demoFetch demoParsed.pair demoParsed.tf (requestedLimit demoParsed.lookback) =
       .ok demoCandles ∧
     snapshot demoReq demoFetch = .ok demoBody ∧
     colMax (demoCandles.map fun cd => cd.h) = some 14) ∧
    (fieldOf demoBody "bos" = fieldOf demoBody "swingHigh" ∧
     fieldOf demoBody "bos" = some (.num (.fin (round2 14)))) :=
  ⟨⟨by decide, by rfl, demo_snapshot_ok, by decide⟩,
   bos_equals_swing_high demoReq demoParsed demoFetch demoCandles demoBody 14
     (by decide) (by rfl) demo_snapshot_ok (by decide)⟩

/-- C3: in every successful response `swingHigh` is the rounded maximum
of the high column and `swingLow` the rounded minimum of the low column,
taken over all fetched candles. -/
theorem swing_high_low_spec
    (req : Req) (q : ParsedReq) (f : PyVal → PyVal → Int → Except String (List Candle))
    (candles : List Candle) (body : List (String × PyObj)) (M m : ℚ)
    (hp : parseOf req = some (.ok q))
    (hf : f q.pair q.tf (requestedLimit q.lookback) = .ok candles)
    (hb : snapshot req f = .ok body)
    (hM : colMax (candles.map fun cd => cd.h) = some M)
    (hm : colMin (candles.map fun cd => cd.l) = some m) :
    fieldOf body "swingHigh" = some (.num (.fin (round2 M))) ∧
    fieldOf body "swingLow" = some (.num (.fin (round2 m))) ∧
    (∀ cd ∈ candles, cd.h ≤ M ∧ m ≤ cd.l) ∧
    (∃ cd ∈ candles, cd.h = M) ∧ (∃ cd ∈ candles, cd.l = m) := by
  have hMs := colMax_spec hM
  have hms := colMin_spec hm
  cases candles with
  | nil => simp [colMax] at hM
  | cons c0 rest =>
    have hred := snapshot_reduces hp hf
    have h2 : snapshotOfCandles (c0 :: rest) q.lookback =
        .ok (cleanDict (rawDict c0 rest q.lookback)) := rfl
    have hbody : body = cleanDict (rawDict c0 rest q.lookback) :=
      SnapResult.ok.inj ((hb.symm.trans hred).trans h2)
    subst hbody
    rw [colMax_map_cons] at hM
    rw [colMin_map_cons] at hm
    have hM2 : rest.foldl (fun a cd => max a cd.h) c0.h = M := Option.some.inj hM
    have hm2 : rest.foldl (fun a cd => min a cd.l) c0.l = m := Option.some.inj hm
    refine ⟨?_, ?_, ?_, ?_, ?_⟩
    · simp [rawDict, cleanDict, fieldOf, cleanVal, hM2]
    · simp [rawDict, cleanDict, fieldOf, cleanVal, hm2]
    · intro cd hcd
      exact ⟨hMs.2 cd.h (List.mem_map_of_mem _ hcd), hms.2 cd.l (List.mem_map_of_mem _ hcd)⟩
    · obtain ⟨cd, hcd, hcdh⟩ := List.mem_map.mp hMs.1
      exact ⟨cd, hcd, hcdh⟩
    · obtain ⟨cd, hcd, hcdl⟩ := List.mem_map.mp hms.1
      exact ⟨cd, hcd, hcdl⟩

/-- Witness for C3 at a concrete request. -/
theorem swing_high_low_spec_witness :
    (parseOf demoReq = some (.ok demoParsed) ∧
     demoFetch demoParsed.pair demoParsed.tf (requestedLimit demoParsed.lookback) =
       .ok demoCandles ∧
     snapshot demoReq demoFetch = .ok demoBody ∧
     colMax (demoCandles.map fun cd => cd.h) = some 14 ∧
     colMin (demoCandles.map fun cd => cd.l) = some 9) ∧
    (fieldOf demoBody "swingHigh" = some (.num (.fin (round2 14))) ∧
     fieldOf demoBody "swingLow" = some (.num (.fin (round2 9))) ∧
     (∀ cd ∈ demoCandles, cd.h ≤ 14 ∧ 9 ≤ cd.l) ∧
     (∃ cd ∈ demoCandles, cd.h = 14) ∧ (∃ cd ∈ demoCandles, cd.l = 9)) :=
  ⟨⟨by decide, by rfl, demo_snapshot_ok, by decide, by decide⟩,
   swing_high_low_spec demoReq demoParsed demoFetch demoCandles demoBody 14 9
     (by decide) (by rfl) demo_snapshot_ok (by decide) (by decide)⟩

/-- C4: in every successful response the `orderBlock` field is the
string `"L-H"` with `L = round(swingLow * 1.01, 2)` and
`H = round(swingLow * 1.03, 2)`, where `swingLow` is the minimum of the
low column. -/
theorem order_block_spec
    (req : Req) (q : ParsedReq) (f : PyVal → PyVal → Int → Except String (List Candle))
    (candles : List Candle) (body : List (String × PyObj)) (m : ℚ)
    (hp : parseOf req = some (.ok q))
    (hf : f q.pair q.tf (requestedLimit q.lookback) = .ok candles)
    (hb : snapshot req f = .ok body)
    (hm : colMin (candles.map fun cd => cd.l) = some m) :
    fieldOf body "orderBlock" =
      some (.str (fmtQ2 (round2 (m * (101 / 100))) ++ "-" ++
        fmtQ2 (round2 (m * (103 / 100))))) := by
  cases candles with
  | nil => simp [colMin] at hm
  | cons c0 rest =>
    have hred := snapshot_reduces hp hf
    have h2 : snapshotOfCandles (c0 :: rest) q.lookback =
        .ok (cleanDict (rawDict c0 rest q.lookback)) := rfl
    have hbody : body = cleanDict (rawDict c0 rest q.lookback) :=
      SnapResult.ok.inj ((hb.symm.trans hred).trans h2)
    subst hbody
    rw [colMin_map_cons] at hm
    have hm2 : rest.foldl (fun a cd => min a cd.l) c0.l = m := Option.some.inj hm
    simp [rawDict, cleanDict, fieldOf, cleanVal, hm2]

/-- Witness for C4 at a concrete request (`swingLow = 9`, so the order
block is `9.09-9.27`). -/
theorem order_block_spec_witness :
    (parseOf demoReq = some (.ok demoParsed) ∧
     demoFetch demoParsed.pair demoParsed.tf (requestedLimit demoParsed.lookback) =
       .ok demoCandles ∧
     snapshot demoReq demoFetch = .ok demoBody ∧
     colMin (demoCandles.map fun cd => cd.l) = some 9) ∧
    fieldOf demoBody "orderBlock" =
      some (.str (fmtQ2 (round2 ((9 : ℚ) * (101 / 100))) ++ "-" ++
        fmtQ2 (round2 ((9 : ℚ) * (103 / 100))))) :=
  ⟨⟨by decide, by rfl, demo_snapshot_ok, by decide⟩,
   order_block_spec demoReq demoParsed demoFetch demoCandles demoBody 9
     (by decide) (by rfl) demo_snapshot_ok (by decide)⟩

/-- C1: in every successful response the `rsi` field is the Relative
Strength Index of the fetched closes — the mean gain over the last
`lookback` price changes divided by the mean loss, mapped through
`100 - 100 / (1 + rs)` and rounded to 2 decimal places.  The RSI
implementation lives in the third-party `pandas_ta` library, so the
indicator is the spec-modelled `rsi` of this file. -/
theorem rsi_field_spec
    (req : Req) (q : ParsedReq) (f : PyVal → PyVal → Int → Except String (List Candle))
    (candles : List Candle) (body : List (String × PyObj))
    (hp : parseOf req = some (.ok q))
    (hf : f q.pair q.tf (requestedLimit q.lookback) = .ok candles)
    (hb : snapshot req f = .ok body)
    (hlb : 0 < q.lookback)
    (hlen : q.lookback.toNat + 1 ≤ candles.length)
    (hloss : (downMoves (lastWindow (q.lookback.toNat + 1)
        (candles.map fun cd => cd.c))).sum ≠ 0) :
    fieldOf body "rsi" = some (.num (.fin (round2 (100 - 100 /
      (1 + ((upMoves (lastWindow (q.lookback.toNat + 1) (candles.map fun cd => cd.c))).sum /
          (q.lookback.toNat : ℚ)) /
        ((downMoves (lastWindow (q.lookback.toNat + 1) (candles.map fun cd => cd.c))).sum /
          (q.lookback.toNat : ℚ))))))) := by
  cases candles with
  | nil => simp at hlen
  | cons c0 rest =>
    have hred := snapshot_reduces hp hf
    have h2 : snapshotOfCandles (c0 :: rest) q.lookback =
        .ok (cleanDict (rawDict c0 rest q.lookback)) := rfl
    have hbody : body = cleanDict (rawDict c0 rest q.lookback) :=
      SnapResult.ok.inj ((hb.symm.trans hred).trans h2)
    subst hbody
    have hnz : ((q.lookback.toNat : ℚ)) ≠ 0 := by
      have h0 : 0 < q.lookback.toNat := by omega
      exact_mod_cast h0.ne'
    have hlen' : q.lookback.toNat + 1 ≤ ((c0 :: rest).map fun cd => cd.c).length := by
      rw [List.length_map]; exact hlen
    have havg : (downMoves (lastWindow (q.lookback.toNat + 1)
        ((c0 :: rest).map fun cd => cd.c))).sum / (q.lookback.toNat : ℚ) ≠ 0 :=
      div_ne_zero hloss hnz
    have hrsi : rsi ((c0 :: rest).map fun cd => cd.c) q.lookback =
        .fin (100 - 100 /
          (1 + ((upMoves (lastWindow (q.lookback.toNat + 1)
              ((c0 :: rest).map fun cd => cd.c))).sum / (q.lookback.toNat : ℚ)) /
            ((downMoves (lastWindow (q.lookback.toNat + 1)
              ((c0 :: rest).map fun cd => cd.c))).sum / (q.lookback.toNat : ℚ)))) := by
      unfold rsi
      rw [if_pos (And.intro hlb hlen'), if_neg havg]
    simp only [List.map_cons] at hrsi
    simp [rawDict, cleanDict, fieldOf, cleanVal, hrsi, roundF2]

/-- Witness for C1 at a concrete request: with `lookback = 2` and the
demonstration candles the mean gain is `1/2` and the mean loss `1`. -/
theorem rsi_field_spec_witness :
    (parseOf demoReq = some (.ok demoParsed) ∧
     demoFetch demoParsed.pair demoParsed.tf (requestedLimit demoParsed.lookback) =
       .ok demoCandles ∧
     snapshot demoReq demoFetch = .ok demoBody ∧
     0 < demoParsed.lookback ∧
     demoParsed.lookback.toNat + 1 ≤ demoCandles.length ∧
     (downMoves (lastWindow (demoParsed.lookback.toNat + 1)
        (demoCandles.map fun cd => cd.c))).sum ≠ 0) ∧
    fieldOf demoBody "rsi" = some (.num (.fin (round2 (100 - 100 /
      (1 + ((upMoves (lastWindow (demoParsed.lookback.toNat + 1)
          (demoCandles.map fun cd => cd.c))).sum / (demoParsed.lookback.toNat : ℚ)) /
        ((downMoves (lastWindow (demoParsed.lookback.toNat + 1)
          (demoCandles.map fun cd => cd.c))).sum / (demoParsed.lookback.toNat : ℚ))))))) :=
  ⟨⟨by decide, rfl, demo_snapshot_ok, by decide, by decide,
    by norm_num [downMoves, lastWindow, demoCandles, demoCandle, List.zip,
      List.zipWith, max_def]⟩,
   rsi_field_spec demoReq demoParsed demoFetch demoCandles demoBody (by decide) rfl
     demo_snapshot_ok (by decide) (by decide)
     (by norm_num [downMoves, lastWindow, demoCandles, demoCandle, List.zip,
       List.zipWith, max_def])⟩

/-- C2: in every successful response the `atr` field is the Average
True Range of the fetched candles — the mean of the last `lookback`
true ranges `max(high - low, |high - prev close|, |low - prev close|)`,
rounded to 2 decimal places.  The ATR implementation lives in the
third-party `pandas_ta` library, so the indicator is the spec-modelled
`atr` of this file. -/
theorem atr_field_spec
    (req : Req) (q : ParsedReq) (f : PyVal → PyVal → Int → Except String (List Candle))
    (candles : List Candle) (body : List (String × PyObj))
    (hp : parseOf req = some (.ok q))
    (hf : f q.pair q.tf (requestedLimit q.lookback) = .ok candles)
    (hb : snapshot req f = .ok body)
    (hlb : 0 < q.lookback)
    (hlen : q.lookback.toNat + 1 ≤ candles.length) :
    fieldOf body "atr" = some (.num (.fin (round2
      ((trueRanges (lastWindow (q.lookback.toNat + 1) candles)).sum /
        (q.lookback.toNat : ℚ))))) := by
  cases candles with
  | nil => simp at hlen
  | cons c0 rest =>
    have hred := snapshot_reduces hp hf
    have h2 : snapshotOfCandles (c0 :: rest) q.lookback =
        .ok (cleanDict (rawDict c0 rest q.lookback)) := rfl
    have hbody : body = cleanDict (rawDict c0 rest q.lookback) :=
      SnapResult.ok.inj ((hb.symm.trans hred).trans h2)
    subst hbody
    have hatr : atr (c0 :: rest) q.lookback =
        .fin ((trueRanges (lastWindow (q.lookback.toNat + 1) (c0 :: rest))).sum /
          (q.lookback.toNat : ℚ)) := by
      unfold atr
      rw [if_pos (And.intro hlb hlen)]
    simp [rawDict, cleanDict, fieldOf, cleanVal, hatr, roundF2]

/-- Witness for C2 at a concrete request: with `lookback = 2` and the
demonstration candles both true ranges are `3`, so the ATR is `3`. -/
theorem atr_field_spec_witness :
    (parseOf demoReq = some (.ok demoParsed) ∧
     demoFetch demoParsed.pair demoParsed.tf (requestedLimit demoParsed.lookback) =
       .ok demoCandles ∧
     snapshot demoReq demoFetch = .ok demoBody ∧
     0 < demoParsed.lookback ∧
     demoParsed.lookback.toNat + 1 ≤ demoCandles.length) ∧
    fieldOf demoBody "atr" = some (.num (.fin (round2
      ((trueRanges (lastWindow (demoParsed.lookback.toNat + 1) demoCandles)).sum /
        (demoParsed.lookback.toNat : ℚ))))) :=
  ⟨⟨by decide, rfl, demo_snapshot_ok, by decide, by decide⟩,
   atr_field_spec demoReq demoParsed demoFetch demoCandles demoBody (by decide) rfl
     demo_snapshot_ok (by decide) (by decide)⟩

/-- C10: GET and POST parsing are equivalent — for every assignment of
the four parameters as strings, the GET query-string parse and the POST
JSON-body parse agree (with `lookback` defaulting to 14 when absent in
either method), and the two requests produce identical responses
against the same exchange. -/
theorem get_post_parse_equiv (pair interval timeframe lookback : Option String) :
    parseGet pair interval timeframe lookback =
      parsePost (pair.map PyVal.vstr) (interval.map PyVal.vstr)
        (timeframe.map PyVal.vstr) (lookback.map PyVal.vstr) ∧
    (∀ q, parseGet pair interval timeframe none = .ok q → q.lookback = 14) ∧
    (∀ q, parsePost (pair.map PyVal.vstr) (interval.map PyVal.vstr)
        (timeframe.map PyVal.vstr) none = .ok q → q.lookback = 14) ∧
    ∀ f, snapshot (.get pair interval timeframe lookback) f =
      snapshot (.post (pair.map PyVal.vstr) (interval.map PyVal.vstr)
        (timeframe.map PyVal.vstr) (lookback.map PyVal.vstr)) f := by
  have h1 : parseGet pair interval timeframe lookback =
      parsePost (pair.map PyVal.vstr) (interval.map PyVal.vstr)
        (timeframe.map PyVal.vstr) (lookback.map PyVal.vstr) := by
    unfold parseGet parsePost
    simp only [pyOr_map_vstr, pyTruthy_map_vstr, getD_map_vstr]
    cases lookback with
    | none => rfl
    | some s => simp only [Option.map_some', pyIntOfVal]
  refine ⟨h1, ?_, ?_, fun f => by simp only [snapshot, parseOf, h1]⟩
  · intro q hq
    simp only [parseGet] at hq
    split at hq
    · cases hq; rfl
    · cases hq
  · intro q hq
    simp only [parsePost, Option.map_none'] at hq
    split at hq
    · cases hq; rfl
    · cases hq

/-- Witness for C10 at concrete parameters. -/
theorem get_post_parse_equiv_witness :
    (parseGet (some "BTCUSDT") (some "1h") none (some "5") =
       parsePost (some (.vstr "BTCUSDT")) (some (.vstr "1h")) none (some (.vstr "5")) ∧
     parseGet (some "BTCUSDT") (some "1h") none none =
       .ok ⟨.vstr "BTCUSDT", .vstr "1h", 14⟩) ∧
    ((⟨.vstr "BTCUSDT", .vstr "1h", 14⟩ : ParsedReq).lookback = 14 ∧
     snapshot (.get (some "BTCUSDT") (some "1h") none (some "5")) demoFetch =
       snapshot (.post (some (.vstr "BTCUSDT")) (some (.vstr "1h")) none
         (some (.vstr "5"))) demoFetch) :=
  ⟨⟨(get_post_parse_equiv (some "BTCUSDT") (some "1h") none (some "5")).1, by decide⟩,
   ⟨(get_post_parse_equiv (some "BTCUSDT") (some "1h") none none).2.1
      ⟨.vstr "BTCUSDT", .vstr "1h", 14⟩ (by decide),
    (get_post_parse_equiv (some "BTCUSDT") (some "1h") none (some "5")).2.2.2 demoFetch⟩⟩

end ConfluenceSnapshot
